import Mathlib

/-!
Verification of the PAPPI Calculator authentication backend.

The development shallowly embeds the core of the service:
* the student account data model (`src/models/estudiante.py`),
* the registration input schema and its validators (`src/schemas/estudiante.py`),
* the credential hasher and token issuer (`src/services/auth_service.py`),
* the register/login orchestration (`src/auth.py`).

The database session is modelled as an explicit `List Estudiante` state; the
unique constraints declared on the `estudiantes` table are enforced by the
modelled insert, mirroring the storage layer.  External libraries invoked by
the source (passlib bcrypt, python-jose JWT, pydantic EmailStr) are modelled
abstractly but faithfully to their documented behaviour, as noted on each
definition.
-/

deriving instance DecidableEq for Except

namespace PappiAuth

/-- The persistent student record, from `src/models/estudiante.py`
(`estudiantes` table).  `correo_institucional` and `dni` carry `unique=True`
constraints there; timestamps are omitted as no claim mentions them. -/
structure Estudiante where
  id : Nat
  nombres : String
  apellidos : String
  correo_institucional : String
  dni : String
  contrasena_hash : String
deriving DecidableEq

/-- Registration input, from `EstudianteCreate` in `src/schemas/estudiante.py`. -/
structure EstudianteCreate where
  nombres : String
  apellidos : String
  correo_institucional : String
  dni : String
  contrasena : String
deriving DecidableEq

/- ## Credential hasher -/

/-- Modelled from passlib's bcrypt handler (external library, called by
`hash_password` in `src/services/auth_service.py`): bcrypt silently truncates
the password to its first 72 bytes before hashing (passlib's default
`truncate_error=False`).  Modelled at character granularity. -/
def bcrypt_truncate (p : String) : List Char := p.data.take 72

/-- Unary rendering of the random salt that bcrypt embeds in its output; the
only property the model needs is that it never contains the delimiter. -/
def saltChars : Nat → List Char
  | 0 => []
  | n + 1 => 's' :: saltChars n

/-- Modelled from `hash_password` in `src/services/auth_service.py`
(passlib bcrypt): a salted one-way hash whose output embeds the salt; the
digest is injective in the truncated password for a fixed salt. -/
def hash_password (salt : Nat) (password : String) : String :=
  String.mk (saltChars salt ++ '$' :: bcrypt_truncate password)

/-- Splits a hash string at the first delimiter, recovering salt and digest. -/
def splitAtDollar : List Char → Option (List Char × List Char)
  | [] => none
  | c :: cs =>
    if c = '$' then some ([], cs)
    else
      match splitAtDollar cs with
      | none => none
      | some (a, b) => some (c :: a, b)

/-- Modelled from `verify_password` in `src/services/auth_service.py`
(passlib bcrypt): re-derives the salt from the stored hash, re-hashes the
candidate (after bcrypt's 72-unit truncation) and compares digests. -/
def verify_password (plain_password hashed_password : String) : Bool :=
  match splitAtDollar hashed_password.data with
  | none => false
  | some (_, digest) => decide (bcrypt_truncate plain_password = digest)

/- ## Validation rules (src/schemas/estudiante.py) -/

/-- Python's `str.isdigit`: nonempty and all characters digits (restricted to
ASCII decimal digits in this model). -/
def str_isdigit (s : String) : Bool :=
  !s.data.isEmpty && s.data.all Char.isDigit

/-- The distinct rejection messages a DNI can produce: pydantic's
`min_length=8` / `max_length=20` field constraints, then the custom
`validar_dni` checks. -/
inductive DniError
  | tooShort
  | tooLong
  | nonDigit
  | wrongLength
deriving DecidableEq

/-- The user-facing message of each DNI rejection, from the `Field` declaration
and `validar_dni` in `src/schemas/estudiante.py`. -/
def dniErrorMsg : DniError → String
  | .tooShort => "String should have at least 8 characters"
  | .tooLong => "String should have at most 20 characters"
  | .nonDigit => "El DNI debe contener solo números"
  | .wrongLength => "El DNI debe tener exactamente 8 dígitos"

/-- DNI validation, from `src/schemas/estudiante.py`: pydantic first enforces
`Field(min_length=8, max_length=20)`, then `validar_dni` requires
`isdigit` and length exactly 8. -/
def validar_dni (v : String) : Except DniError String :=
  if v.length < 8 then .error .tooShort
  else if 20 < v.length then .error .tooLong
  else if str_isdigit v = false then .error .nonDigit
  else if v.length ≠ 8 then .error .wrongLength
  else .ok v

/-- Matches `re.search` with pattern `[A-Z]`: at least one ASCII uppercase letter. -/
def hasUpper (s : String) : Bool :=
  s.data.any (fun c => 'A' ≤ c && c ≤ 'Z')

/-- Matches `re.search` with pattern `[a-z]`: at least one ASCII lowercase letter. -/
def hasLower (s : String) : Bool :=
  s.data.any (fun c => 'a' ≤ c && c ≤ 'z')

/-- Matches `re.search` with the digit class: at least one decimal digit (ASCII in this model). -/
def hasDigitChar (s : String) : Bool :=
  s.data.any Char.isDigit

/-- The distinct rejection messages a password can produce: pydantic's
`min_length=8` / `max_length=100` field constraints, then the composition
checks of `validar_contrasena`. -/
inductive PwError
  | tooShort
  | tooLong
  | noUpper
  | noLower
  | noDigit
deriving DecidableEq

/-- The user-facing message of each password rejection, from the `Field`
declaration and `validar_contrasena` in `src/schemas/estudiante.py`. -/
def pwErrorMsg : PwError → String
  | .tooShort => "La contraseña debe tener al menos 8 caracteres"
  | .tooLong => "String should have at most 100 characters"
  | .noUpper => "La contraseña debe contener al menos una letra mayúscula"
  | .noLower => "La contraseña debe contener al menos una letra minúscula"
  | .noDigit => "La contraseña debe contener al menos un número"

/-- Password validation, from `src/schemas/estudiante.py`: pydantic enforces
`Field(min_length=8, max_length=100)`, then `validar_contrasena` checks the
length again and then the three composition rules, first failure wins. -/
def validar_contrasena (v : String) : Except PwError String :=
  if v.length < 8 then .error .tooShort
  else if 100 < v.length then .error .tooLong
  else if hasUpper v = false then .error .noUpper
  else if hasLower v = false then .error .noLower
  else if hasDigitChar v = false then .error .noDigit
  else .ok v

/-- Modelled from the spec: pydantic's `EmailStr` (external email-validator
library, declared on `correo_institucional` in `src/schemas/estudiante.py`)
requires a syntactically valid email; modelled as a nonempty local part, a
single at-sign, and a nonempty domain containing a dot. -/
def validEmail (s : String) : Bool :=
  let l := s.data
  let locPart := l.takeWhile (fun c => c != '@')
  let rest := l.dropWhile (fun c => c != '@')
  match rest with
  | '@' :: domain =>
    (!locPart.isEmpty) && (!domain.isEmpty) && (!domain.contains '@') &&
      (domain.contains '.')
  | _ => false

/-- A field-scoped validation failure, as surfaced through the 422
`RequestValidationError` handler in `src/auth.py`. -/
inductive FieldError
  | nombres
  | apellidos
  | correo
  | dni (e : DniError)
  | contrasena (e : PwError)
deriving DecidableEq

/-- Whole-record validation of `EstudianteCreate`, from the `Field`
declarations and `field_validator`s in `src/schemas/estudiante.py`:
`nombres`/`apellidos` length in [2,100], `EmailStr`, the DNI chain, the
password chain (first failing field reported in declaration order). -/
def validateEstudianteCreate (d : EstudianteCreate) :
    Except FieldError EstudianteCreate :=
  if d.nombres.length < 2 ∨ 100 < d.nombres.length then .error .nombres
  else if d.apellidos.length < 2 ∨ 100 < d.apellidos.length then
    .error .apellidos
  else if validEmail d.correo_institucional = false then .error .correo
  else
    match validar_dni d.dni with
    | .error e => .error (.dni e)
    | .ok _ =>
      match validar_contrasena d.contrasena with
      | .error e => .error (.contrasena e)
      | .ok _ => .ok d

/- ## Token issuer (src/services/auth_service.py, python-jose) -/

/-- Schema `TokenData` from `src/schemas/estudiante.py`. -/
structure TokenData where
  correo_institucional : Option String := none
deriving DecidableEq

/-- The claim set `create_access_token` encodes: the `sub` claim copied from
its `data` argument (absent when the dict carries no `"sub"` key) and the
`exp` claim it always sets, as seconds since the epoch. -/
structure JWTPayload where
  sub : Option String
  exp : Nat
deriving DecidableEq

/-- Modelled from python-jose (external library): a JWT is either a
well-formed payload signed with some key, or a malformed string that fails
structural parsing. -/
inductive JWTToken
  | signed (payload : JWTPayload) (key : String)
  | malformed
deriving DecidableEq

/-- Modelled from `jose.jwt.encode`: sign the payload with the secret. -/
def jwtEncode (secret : String) (p : JWTPayload) : JWTToken :=
  .signed p secret

/-- Modelled from `jose.jwt.decode`: signature mismatch, malformed input and
expiry (`exp < now`, zero leeway) all raise `JWTError`; the caller in
`decode_access_token` turns that into `none`. -/
def jwtDecode (secret : String) (now : Nat) (t : JWTToken) :
    Option JWTPayload :=
  match t with
  | .malformed => none
  | .signed p key =>
    if key = secret then (if p.exp < now then none else some p) else none

/-- Default of `settings.ACCESS_TOKEN_EXPIRE_MINUTES` from `src/core/config.py`. -/
def ACCESS_TOKEN_EXPIRE_MINUTES : Nat := 30

/-- Function `create_access_token` from `src/services/auth_service.py`: sets
`exp := now + expires_delta` (default 30 minutes) and signs with the
process-wide secret.  `sub` is the `"sub"` entry of the `data` dict.
Durations are in seconds. -/
def create_access_token (secret : String) (now : Nat) (sub : Option String)
    (expires_delta : Option Nat) : JWTToken :=
  let expire :=
    match expires_delta with
    | some d => now + d
    | none => now + ACCESS_TOKEN_EXPIRE_MINUTES * 60
  jwtEncode secret { sub := sub, exp := expire }

/-- Function `decode_access_token` from `src/services/auth_service.py`: decode and
validate the token; return `none` on any `JWTError` and also when the payload
has no `sub` claim. -/
def decode_access_token (secret : String) (now : Nat) (t : JWTToken) :
    Option TokenData :=
  match jwtDecode secret now t with
  | none => none
  | some payload =>
    match payload.sub with
    | none => none
    | some correo => some { correo_institucional := some correo }

/- ## Account store and auth service (src/services/auth_service.py) -/

/-- Lookup `get_estudiante_by_correo`: first row whose email matches. -/
def get_estudiante_by_correo (db : List Estudiante) (correo : String) :
    Option Estudiante :=
  db.find? (fun e => decide (e.correo_institucional = correo))

/-- Lookup `get_estudiante_by_dni`: first row whose DNI matches. -/
def get_estudiante_by_dni (db : List Estudiante) (dni : String) :
    Option Estudiante :=
  db.find? (fun e => decide (e.dni = dni))

/-- The message of the `IntegrityError` the database raises when the commit in
`create_estudiante` violates one of the unique constraints declared in
`src/models/estudiante.py` (modelled message text; the email constraint is
checked first, mirroring column order). -/
def integrityErrorMsg (correoDup : Bool) : String :=
  if correoDup then
    "(IntegrityError) UNIQUE constraint failed: estudiantes.correo_institucional"
  else "(IntegrityError) UNIQUE constraint failed: estudiantes.dni"

/-- The row `create_estudiante` builds from the input, hashing the password;
`id` is the database-assigned auto-increment value. -/
def newRow (db : List Estudiante) (d : EstudianteCreate) (salt : Nat) :
    Estudiante :=
  { id := db.length + 1
    nombres := d.nombres
    apellidos := d.apellidos
    correo_institucional := d.correo_institucional
    dni := d.dni
    contrasena_hash := hash_password salt d.contrasena }

/-- Function `create_estudiante` from `src/services/auth_service.py`: hash the
password, build the row, commit.  The commit enforces the `unique=True`
constraints on `correo_institucional` and `dni` declared in
`src/models/estudiante.py`, raising `IntegrityError` (modelled as `.error`)
on violation. -/
def create_estudiante (db : List Estudiante) (d : EstudianteCreate)
    (salt : Nat) : Except String (List Estudiante × Estudiante) :=
  if db.any (fun e => decide (e.correo_institucional = d.correo_institucional))
  then .error (integrityErrorMsg true)
  else if db.any (fun e => decide (e.dni = d.dni)) then
    .error (integrityErrorMsg false)
  else .ok (db ++ [newRow db d salt], newRow db d salt)

/-- Function `authenticate_estudiante` from `src/services/auth_service.py`: look up by
email, then verify the password against the stored hash; `none` on either
failure. -/
def authenticate_estudiante (db : List Estudiante)
    (correo contrasena : String) : Option Estudiante :=
  match get_estudiante_by_correo db correo with
  | none => none
  | some e =>
    if verify_password contrasena e.contrasena_hash then some e else none

/- ## Orchestrator endpoints (src/auth.py) -/

/-- An `HTTPException` value as raised by the endpoints in `src/auth.py`:
status code and detail message. -/
structure HTTPError where
  status : Nat
  detail : String
deriving DecidableEq

/-- The 401 raised by `login` for any authentication failure. -/
def invalidCredentialsError : HTTPError :=
  { status := 401, detail := "Correo institucional o contraseña incorrectos" }

/-- The 400 raised by `registrar_estudiante` on a duplicate email pre-check. -/
def correoRegistradoError : HTTPError :=
  { status := 400, detail := "El correo institucional ya está registrado" }

/-- The 400 raised by `registrar_estudiante` on a duplicate DNI pre-check. -/
def dniRegistradoError : HTTPError :=
  { status := 400, detail := "El DNI ya está registrado" }

/-- The 500 raised by `registrar_estudiante`'s catch-all `except Exception`
around `create_estudiante`, embedding `str(e)`. -/
def registroServerError (msg : String) : HTTPError :=
  { status := 500, detail := "Error al registrar el estudiante: " ++ msg }

/-- The login success body: the access token plus the literal token type "bearer". -/
structure Token where
  access_token : JWTToken
  token_type : String := "bearer"
deriving DecidableEq

/-- The body of `registrar_estudiante` in `src/auth.py`, after pydantic
validation has accepted the input: advisory email lookup, then advisory DNI
lookup, then `create_estudiante`.  The database seen by the insert
(`dbInsert`) is distinguished from the one the pre-checks observed
(`dbCheck`) so a concurrent registration committing between the two steps is
representable; the sequential case is `dbCheck = dbInsert`. -/
def registrar_estudiante (dbCheck dbInsert : List Estudiante)
    (input : EstudianteCreate) (salt : Nat) :
    Except HTTPError (List Estudiante × Estudiante) :=
  match get_estudiante_by_correo dbCheck input.correo_institucional with
  | some _ => .error correoRegistradoError
  | none =>
    match get_estudiante_by_dni dbCheck input.dni with
    | some _ => .error dniRegistradoError
    | none =>
      match create_estudiante dbInsert input salt with
      | .ok r => .ok r
      | .error msg => .error (registroServerError msg)

/-- The full registration path: pydantic validation of the request body (a 422
from the `RequestValidationError` handler on failure, carrying the field
message), then `registrar_estudiante` run sequentially against the current
store. -/
def registerEndpoint (db : List Estudiante) (input : EstudianteCreate)
    (salt : Nat) : Except HTTPError (List Estudiante × Estudiante) :=
  match validateEstudianteCreate input with
  | .error e =>
    .error { status := 422
             detail :=
               match e with
               | .nombres => "String length out of range: nombres"
               | .apellidos => "String length out of range: apellidos"
               | .correo => "value is not a valid email address"
               | .dni de => dniErrorMsg de
               | .contrasena pe => pwErrorMsg pe }
  | .ok d => registrar_estudiante db db d salt

/-- The login endpoint from `src/auth.py`: authenticate, raise the uniform
401 on failure, otherwise issue a token with `sub` = email and
`expires_delta` = `ACCESS_TOKEN_EXPIRE_MINUTES` (as seconds). -/
def login (secret : String) (now : Nat) (db : List Estudiante)
    (correo contrasena : String) : Except HTTPError Token :=
  match authenticate_estudiante db correo contrasena with
  | none => .error invalidCredentialsError
  | some e =>
    .ok { access_token :=
            create_access_token secret now (some e.correo_institucional)
              (some (ACCESS_TOKEN_EXPIRE_MINUTES * 60)) }

/- ## Reachable store states -/

/-- The store states the system can produce: the empty store, extended only by
successful registrations (login and the lookup operations never mutate the
store).  The pre-checks of the registration that produced the step may have
run against an earlier snapshot `dbCheck` (check-then-insert race). -/
inductive Reachable : List Estudiante → Prop
  | init : Reachable []
  | register (db dbCheck : List Estudiante) (input : EstudianteCreate)
      (salt : Nat) (st : List Estudiante) (e : Estudiante) :
      Reachable db →
      registrar_estudiante dbCheck db input salt = .ok (st, e) →
      Reachable st

/-- Pairwise distinctness of both unique keys across the store. -/
def uniqueKeys (db : List Estudiante) : Prop :=
  db.Pairwise (fun a b =>
    a.correo_institucional ≠ b.correo_institucional ∧ a.dni ≠ b.dni)

/- ## Concrete data for witnesses -/

/-- The registration example from the spec. -/
def anaInput : EstudianteCreate :=
  { nombres := "Ana"
    apellidos := "Lopez"
    correo_institucional := "ana@uni.edu"
    dni := "12345678"
    contrasena := "Secret123" }

/-- The row created by registering `anaInput` into an empty store. -/
def anaRow : Estudiante :=
  { id := 1
    nombres := "Ana"
    apellidos := "Lopez"
    correo_institucional := "ana@uni.edu"
    dni := "12345678"
    contrasena_hash := hash_password 0 "Secret123" }

/-- A 73-character password: one character beyond bcrypt's truncation limit. -/
def longPw1 : String := String.mk (List.replicate 73 'a')

/-- A different 73-character password agreeing with `longPw1` on the first 72
characters. -/
def longPw2 : String := String.mk (List.replicate 72 'a' ++ ['b'])

/- ## Helper lemmas -/

theorem splitAtDollar_salt (s : Nat) (rest : List Char) :
    splitAtDollar (saltChars s ++ '$' :: rest) = some (saltChars s, rest) := by
  induction s with
  | zero => simp [saltChars, splitAtDollar]
  | succ n ih => simp [saltChars, splitAtDollar, ih]

theorem verify_hash (p p2 : String) (salt : Nat) :
    verify_password p (hash_password salt p2) =
      decide (bcrypt_truncate p = bcrypt_truncate p2) := by
  unfold verify_password hash_password
  rw [show (String.mk (saltChars salt ++ '$' :: bcrypt_truncate p2)).data =
      saltChars salt ++ '$' :: bcrypt_truncate p2 from rfl]
  rw [splitAtDollar_salt]

theorem verify_hash_self (p : String) (salt : Nat) :
    verify_password p (hash_password salt p) = true := by
  rw [verify_hash]
  simp

theorem bcrypt_truncate_of_le {p : String} (h : p.length ≤ 72) :
    bcrypt_truncate p = p.data :=
  List.take_of_length_le h

theorem string_data_eq_iff {p q : String} : p.data = q.data ↔ p = q := by
  constructor
  · intro h
    cases p
    cases q
    exact congrArg String.mk h
  · intro h
    rw [h]

theorem find?_eq_none_of_all {α : Type} {p : α → Bool} {l : List α}
    (h : ∀ x ∈ l, p x = false) : l.find? p = none := by
  rw [List.find?_eq_none]
  intro x hx
  simp [h x hx]

theorem find?_append_of_none {α : Type} (p : α → Bool) {l1 : List α}
    (l2 : List α) (h : l1.find? p = none) :
    (l1 ++ l2).find? p = l2.find? p := by
  induction l1 with
  | nil => simp
  | cons a t ih =>
    cases hpa : p a with
    | true =>
      rw [List.find?_cons_of_pos _ hpa] at h
      exact absurd h (by simp)
    | false =>
      rw [List.find?_cons_of_neg _ (by simp [hpa])] at h
      rw [List.cons_append, List.find?_cons_of_neg _ (by simp [hpa])]
      exact ih h

/- ## Claim theorems -/

/-- C4: a registration DNI is accepted by validation iff it consists only of
decimal digits and has length exactly 8; a rejection carrying the non-digit
message really saw a non-digit DNI, and a rejection carrying any of the
length messages really saw a DNI whose length is not 8. -/
theorem C4_dni_validation (v : String) :
    (validar_dni v = .ok v ↔ (str_isdigit v = true ∧ v.length = 8)) ∧
    (validar_dni v = .error .nonDigit → str_isdigit v = false) ∧
    (∀ e : DniError, validar_dni v = .error e → e ≠ .nonDigit →
      v.length ≠ 8) := by
  unfold validar_dni
  split_ifs with h1 h2 h3 h4 <;> simp_all <;>
    exact ⟨fun _ => by omega, by omega⟩

/-- Witness for C4 at concrete inputs: a digit-bearing rejection and a
length rejection, both obtained through `C4_dni_validation`. -/
theorem C4_dni_validation_witness :
    str_isdigit "1234a678" = false ∧ ("123456789" : String).length ≠ 8 :=
  ⟨(C4_dni_validation "1234a678").2.1 (by decide),
   (C4_dni_validation "123456789").2.2 DniError.wrongLength (by decide)
     (by decide)⟩

/-- C5: a registration password is accepted by validation iff its length is
in [8,100] and it contains an uppercase letter, a lowercase letter and a
digit; each rejection message identifies exactly the first failing rule in
the order length, uppercase, lowercase, digit. -/
theorem C5_password_validation (v : String) :
    (validar_contrasena v = .ok v ↔
      (8 ≤ v.length ∧ v.length ≤ 100 ∧ hasUpper v = true ∧
        hasLower v = true ∧ hasDigitChar v = true)) ∧
    (validar_contrasena v = .error .tooShort ↔ v.length < 8) ∧
    (validar_contrasena v = .error .tooLong ↔
      (8 ≤ v.length ∧ 100 < v.length)) ∧
    (validar_contrasena v = .error .noUpper ↔
      (8 ≤ v.length ∧ v.length ≤ 100 ∧ hasUpper v = false)) ∧
    (validar_contrasena v = .error .noLower ↔
      (8 ≤ v.length ∧ v.length ≤ 100 ∧ hasUpper v = true ∧
        hasLower v = false)) ∧
    (validar_contrasena v = .error .noDigit ↔
      (8 ≤ v.length ∧ v.length ≤ 100 ∧ hasUpper v = true ∧
        hasLower v = true ∧ hasDigitChar v = false)) := by
  unfold validar_contrasena
  split_ifs with h1 h2 h3 h4 h5 <;> simp_all

/-- C6 counterexample: two distinct passwords that bcrypt's 72-unit
truncation identifies — `verify` accepts the wrong plaintext, so
`verify(p, hash(p2))` is not false for every `p ≠ p2`. -/
theorem C6_counterexample :
    longPw1 ≠ longPw2 ∧
    verify_password longPw1 (hash_password 0 longPw2) = true := by
  constructor
  · decide
  · rw [verify_hash]
    decide

/-- C6 (amended): `verify(p, hash(p2))` holds iff `p` and `p2` agree after
bcrypt's 72-unit truncation; in particular, for passwords that the hasher
does not truncate (length at most 72), it holds iff `p = p2`. -/
theorem C6_verify_agrees_up_to_truncation (p p2 : String) (salt : Nat) :
    (verify_password p (hash_password salt p2) = true ↔
      bcrypt_truncate p = bcrypt_truncate p2) ∧
    (p.length ≤ 72 → p2.length ≤ 72 →
      (verify_password p (hash_password salt p2) = true ↔ p = p2)) := by
  have hbase : verify_password p (hash_password salt p2) = true ↔
      bcrypt_truncate p = bcrypt_truncate p2 := by
    rw [verify_hash]
    simp
  refine ⟨hbase, fun hp hp2 => ?_⟩
  rw [hbase, bcrypt_truncate_of_le hp, bcrypt_truncate_of_le hp2]
  exact string_data_eq_iff

/-- Witness for C6 (amended) at concrete untruncated passwords. -/
theorem C6_verify_agrees_up_to_truncation_witness :
    verify_password "Secret123" (hash_password 0 "Secret123") = true ∧
    verify_password "Wrong1234" (hash_password 0 "Secret123") ≠ true :=
  ⟨((C6_verify_agrees_up_to_truncation "Secret123" "Secret123" 0).2
      (by decide) (by decide)).mpr rfl,
   fun h =>
     by exact absurd (((C6_verify_agrees_up_to_truncation "Wrong1234"
       "Secret123" 0).2 (by decide) (by decide)).mp h) (by decide)⟩

/-- C8: a token issued at `now` with a 30-minute ttl decodes to its subject
when checked 29 minutes later, and decodes to the invalid result (`none`,
not a thrown fault) when checked 31 minutes later. -/
theorem C8_token_expiry (secret sub : String) (now : Nat) :
    decode_access_token secret (now + 29 * 60)
        (create_access_token secret now (some sub) (some (30 * 60))) =
      some { correo_institucional := some sub } ∧
    decode_access_token secret (now + 31 * 60)
        (create_access_token secret now (some sub) (some (30 * 60))) =
      none := by
  unfold decode_access_token create_access_token jwtEncode jwtDecode
  constructor
  · dsimp only
    rw [if_pos rfl, if_neg (by omega)]
  · dsimp only
    rw [if_pos rfl, if_pos (by omega)]

/-- C10: a well-signed, unexpired token whose payload carries no `sub` claim
decodes to the invalid result (`none`), not to a subject or a fault. -/
theorem C10_decode_without_sub (secret : String) (now expiry : Nat)
    (h : now ≤ expiry) :
    decode_access_token secret now
      (JWTToken.signed { sub := none, exp := expiry } secret) = none := by
  unfold decode_access_token jwtDecode
  dsimp only
  rw [if_pos rfl, if_neg (by omega)]

/-- Witness for C10 at a concrete secret, time and expiry. -/
theorem C10_decode_without_sub_witness :
    decode_access_token "k" 0 (JWTToken.signed { sub := none, exp := 5 } "k")
      = none :=
  C10_decode_without_sub "k" 0 5 (by decide)

/-- C2: the registration pre-checks test email uniqueness strictly before DNI
uniqueness — a duplicated email yields the duplicate-email error regardless
of the DNI (so also when both keys are duplicated), and the duplicate-DNI
error arises exactly when the email is fresh but the DNI is taken. -/
theorem C2_email_checked_before_dni (dbCheck dbInsert : List Estudiante)
    (input : EstudianteCreate) (salt : Nat) :
    ((∃ a ∈ dbCheck, a.correo_institucional = input.correo_institucional) →
      registrar_estudiante dbCheck dbInsert input salt =
        .error correoRegistradoError) ∧
    ((∀ a ∈ dbCheck, a.correo_institucional ≠ input.correo_institucional) →
      (∃ a ∈ dbCheck, a.dni = input.dni) →
      registrar_estudiante dbCheck dbInsert input salt =
        .error dniRegistradoError) := by
  constructor
  · rintro ⟨a, ha, he⟩
    unfold registrar_estudiante
    cases hf : get_estudiante_by_correo dbCheck input.correo_institucional with
    | some b => rfl
    | none =>
      exfalso
      rw [get_estudiante_by_correo, List.find?_eq_none] at hf
      exact hf a ha (by simp [he])
  · rintro hno ⟨a, ha, hd⟩
    unfold registrar_estudiante
    have hc : get_estudiante_by_correo dbCheck input.correo_institucional =
        none := by
      apply find?_eq_none_of_all
      intro x hx
      simp [hno x hx]
    rw [hc]
    cases hf : get_estudiante_by_dni dbCheck input.dni with
    | some b => rfl
    | none =>
      exfalso
      rw [get_estudiante_by_dni, List.find?_eq_none] at hf
      exact hf a ha (by simp [hd])

/-- Witness for C2: a store holding Ana; registering with both her email and
her DNI reports the duplicate email, registering with a fresh email but her
DNI reports the duplicate DNI. -/
theorem C2_email_checked_before_dni_witness :
    registrar_estudiante [anaRow] [anaRow] anaInput 0 =
      .error correoRegistradoError ∧
    registrar_estudiante [anaRow] [anaRow]
        { anaInput with correo_institucional := "bob@uni.edu" } 0 =
      .error dniRegistradoError :=
  ⟨(C2_email_checked_before_dni [anaRow] [anaRow] anaInput 0).1
      ⟨anaRow, by simp, by decide⟩,
   (C2_email_checked_before_dni [anaRow] [anaRow]
        { anaInput with correo_institucional := "bob@uni.edu" } 0).2
      (by intro a ha; simp at ha; subst ha; decide)
      ⟨anaRow, by simp, by decide⟩⟩

/-- C7: login with an email bound to no account and login with a known email
but a password failing verification return the same error value — the 401
with the single non-specific message — so the caller cannot tell which
factor was wrong. -/
theorem C7_uniform_login_error (secret : String) (now : Nat)
    (db : List Estudiante) (e1 p1 e2 p2 : String) (a : Estudiante)
    (h1 : ∀ x ∈ db, x.correo_institucional ≠ e1)
    (h2 : get_estudiante_by_correo db e2 = some a)
    (h3 : verify_password p2 a.contrasena_hash = false) :
    login secret now db e1 p1 = .error invalidCredentialsError ∧
    login secret now db e2 p2 = .error invalidCredentialsError := by
  constructor
  · unfold login authenticate_estudiante
    have hc : get_estudiante_by_correo db e1 = none := by
      apply find?_eq_none_of_all
      intro x hx
      simp [h1 x hx]
    rw [hc]
  · unfold login authenticate_estudiante
    rw [h2]
    dsimp only
    rw [if_neg (by simp [h3])]

/-- Witness for C7: a store holding Ana; an unknown email and Ana's email
with a wrong password produce the identical error. -/
theorem C7_uniform_login_error_witness :
    login "k" 0 [anaRow] "bob@uni.edu" "Secret123" =
      .error invalidCredentialsError ∧
    login "k" 0 [anaRow] "ana@uni.edu" "Wrong1234" =
      .error invalidCredentialsError :=
  C7_uniform_login_error "k" 0 [anaRow] "bob@uni.edu" "Secret123"
    "ana@uni.edu" "Wrong1234" anaRow
    (by intro x hx; simp at hx; subst hx; decide)
    (by decide) (by decide)

/-- C1: a registration input that passes all validation and whose email and
DNI are fresh registers successfully, and logging in with the same email and
plaintext password then yields a bearer token. -/
theorem C1_register_then_login (secret : String) (now salt : Nat)
    (db : List Estudiante) (input : EstudianteCreate)
    (hv : validateEstudianteCreate input = .ok input)
    (hfresh : ∀ a ∈ db,
      a.correo_institucional ≠ input.correo_institucional ∧
        a.dni ≠ input.dni) :
    ∃ st created,
      registerEndpoint db input salt = .ok (st, created) ∧
      ∃ tok,
        login secret now st input.correo_institucional input.contrasena =
          .ok tok := by
  have hc : get_estudiante_by_correo db input.correo_institucional = none := by
    apply find?_eq_none_of_all
    intro x hx
    simp [(hfresh x hx).1]
  have hd : get_estudiante_by_dni db input.dni = none := by
    apply find?_eq_none_of_all
    intro x hx
    simp [(hfresh x hx).2]
  have hanyc : db.any (fun e =>
      decide (e.correo_institucional = input.correo_institucional)) =
      false := by
    rw [List.any_eq_false]
    intro x hx
    simp [(hfresh x hx).1]
  have hanyd : db.any (fun e => decide (e.dni = input.dni)) = false := by
    rw [List.any_eq_false]
    intro x hx
    simp [(hfresh x hx).2]
  refine ⟨db ++ [newRow db input salt], newRow db input salt, ?_, ?_⟩
  · unfold registerEndpoint
    rw [hv]
    dsimp only
    unfold registrar_estudiante
    rw [hc]
    dsimp only
    rw [hd]
    dsimp only
    unfold create_estudiante
    rw [hanyc, hanyd]
    rfl
  · refine ⟨⟨create_access_token secret now
        (some (newRow db input salt).correo_institucional)
        (some (ACCESS_TOKEN_EXPIRE_MINUTES * 60)), "bearer"⟩, ?_⟩
    have hc' : db.find? (fun e =>
        decide (e.correo_institucional = input.correo_institucional)) =
        none := hc
    unfold login authenticate_estudiante get_estudiante_by_correo
    rw [find?_append_of_none _ _ hc',
      List.find?_cons_of_pos _ (by simp [newRow])]
    dsimp only
    have hhash : (newRow db input salt).contrasena_hash =
        hash_password salt input.contrasena := rfl
    rw [hhash, if_pos (verify_hash_self input.contrasena salt)]

/-- Witness for C1: the spec's Ana example registered into the empty store
and then logged in. -/
theorem C1_register_then_login_witness :
    ∃ st created,
      registerEndpoint [] anaInput 0 = .ok (st, created) ∧
      ∃ tok,
        login "secret" 0 st anaInput.correo_institucional
          anaInput.contrasena = .ok tok :=
  C1_register_then_login "secret" 0 0 [] anaInput (by decide) (by simp)

/-- C3 counterexample: a registration whose pre-checks ran against a snapshot
without conflicts but whose insert hits the unique constraint (the modelled
race) is answered with the generic 500 server error, which differs from both
duplicate errors — not with a duplicate/conflict-class error as the claim
requires. -/
theorem C3_counterexample :
    registrar_estudiante [] [anaRow] anaInput 0 =
      .error (registroServerError (integrityErrorMsg true)) ∧
    (registroServerError (integrityErrorMsg true)).status = 500 ∧
    registroServerError (integrityErrorMsg true) ≠ correoRegistradoError ∧
    registroServerError (integrityErrorMsg true) ≠ dniRegistradoError := by
  refine ⟨by decide, rfl, by decide, by decide⟩

/-- C3 (amended): when the pre-checks pass but the insert itself hits a
uniqueness conflict, the catch-all handler reports a generic 500
internal-server error embedding the exception message — the same shape as
any other insert failure — rather than a duplicate or conflict error. -/
theorem C3_insert_conflict_reported_as_500
    (dbCheck dbInsert : List Estudiante) (input : EstudianteCreate)
    (salt : Nat)
    (h1 : ∀ a ∈ dbCheck,
      a.correo_institucional ≠ input.correo_institucional ∧
        a.dni ≠ input.dni)
    (h2 : ∃ a ∈ dbInsert,
      a.correo_institucional = input.correo_institucional ∨
        a.dni = input.dni) :
    ∃ msg, registrar_estudiante dbCheck dbInsert input salt =
      .error { status := 500,
               detail := "Error al registrar el estudiante: " ++ msg } := by
  have hc : get_estudiante_by_correo dbCheck input.correo_institucional =
      none := by
    apply find?_eq_none_of_all
    intro x hx
    simp [(h1 x hx).1]
  have hd : get_estudiante_by_dni dbCheck input.dni = none := by
    apply find?_eq_none_of_all
    intro x hx
    simp [(h1 x hx).2]
  unfold registrar_estudiante
  rw [hc]
  dsimp only
  rw [hd]
  dsimp only
  unfold create_estudiante
  by_cases hcc : dbInsert.any (fun e =>
      decide (e.correo_institucional = input.correo_institucional)) = true
  · rw [if_pos hcc]
    exact ⟨integrityErrorMsg true, rfl⟩
  · have hdd : dbInsert.any (fun e => decide (e.dni = input.dni)) = true := by
      rcases h2 with ⟨a, ha, hcor | hdni⟩
      · exact absurd (List.any_eq_true.mpr ⟨a, ha, by simp [hcor]⟩) hcc
      · exact List.any_eq_true.mpr ⟨a, ha, by simp [hdni]⟩
    rw [if_neg hcc, if_pos hdd]
    exact ⟨integrityErrorMsg false, rfl⟩

/-- Witness for C3 (amended): pre-checks against the empty snapshot, insert
against a store already holding Ana's email. -/
theorem C3_insert_conflict_reported_as_500_witness :
    ∃ msg, registrar_estudiante [] [anaRow] anaInput 0 =
      .error { status := 500,
               detail := "Error al registrar el estudiante: " ++ msg } :=
  C3_insert_conflict_reported_as_500 [] [anaRow] anaInput 0 (by simp)
    ⟨anaRow, by simp, Or.inl rfl⟩

theorem create_estudiante_ok_inv {db : List Estudiante}
    {d : EstudianteCreate} {salt : Nat} {st : List Estudiante}
    {e : Estudiante} (h : create_estudiante db d salt = .ok (st, e)) :
    db.any (fun x =>
      decide (x.correo_institucional = d.correo_institucional)) = false ∧
    db.any (fun x => decide (x.dni = d.dni)) = false ∧
    st = db ++ [e] ∧
    e.correo_institucional = d.correo_institucional ∧ e.dni = d.dni := by
  unfold create_estudiante at h
  split_ifs at h with hcond hdcond
  simp only [Except.ok.injEq, Prod.mk.injEq] at h
  obtain ⟨hst, he⟩ := h
  subst he
  exact ⟨by simpa using hcond, by simpa using hdcond, hst.symm, rfl, rfl⟩

theorem registrar_ok_inv {dbCheck dbInsert : List Estudiante}
    {input : EstudianteCreate} {salt : Nat} {st : List Estudiante}
    {e : Estudiante}
    (h : registrar_estudiante dbCheck dbInsert input salt = .ok (st, e)) :
    create_estudiante dbInsert input salt = .ok (st, e) := by
  unfold registrar_estudiante at h
  cases hfc : get_estudiante_by_correo dbCheck input.correo_institucional with
  | some a => rw [hfc] at h; simp at h
  | none =>
    rw [hfc] at h
    dsimp only at h
    cases hfd : get_estudiante_by_dni dbCheck input.dni with
    | some a => rw [hfd] at h; simp at h
    | none =>
      rw [hfd] at h
      dsimp only at h
      cases hcr : create_estudiante dbInsert input salt with
      | error m => rw [hcr] at h; simp at h
      | ok r =>
        rw [hcr] at h
        simp only [Except.ok.injEq] at h
        rw [h]

/-- C9: in every reachable store state, institutional emails are pairwise
distinct and DNIs are pairwise distinct; registration (the only mutating
operation — login and the lookups leave the store unchanged) preserves the
invariant because the insert refuses both conflicts even when the advisory
pre-checks ran on a stale snapshot. -/
theorem C9_unique_keys_invariant (db : List Estudiante)
    (h : Reachable db) : uniqueKeys db := by
  induction h with
  | init => exact List.Pairwise.nil
  | register db dbCheck input salt st e hdb hreg ih =>
    obtain ⟨hcall, hdall, hst, hecor, hedni⟩ :=
      create_estudiante_ok_inv (registrar_ok_inv hreg)
    subst hst
    rw [uniqueKeys, List.pairwise_append]
    refine ⟨ih, by simp, ?_⟩
    intro a ha b hb
    rw [List.mem_singleton] at hb
    subst hb
    rw [List.any_eq_false] at hcall hdall
    constructor
    · rw [hecor]
      intro heq
      exact hcall a ha (by simp [heq])
    · rw [hedni]
      intro heq
      exact hdall a ha (by simp [heq])

/-- Witness for C9: the store reached by registering Ana into the empty
store has pairwise-distinct keys. -/
theorem C9_unique_keys_invariant_witness : uniqueKeys [anaRow] :=
  C9_unique_keys_invariant [anaRow]
    (Reachable.register [] [] anaInput 0 [anaRow] anaRow Reachable.init
      (by decide))

end PappiAuth
